import Mathlib

/-!
Verification of the `proliferate` modal-sandbox deployment scripts
(`packages/modal-sandbox/deploy.py` and `packages/modal-sandbox/debug_build.py`)
against their natural-language specification.

The two Python scripts are shallowly embedded below.  Reads of the process
environment are modelled by passing the (optional) value of the single
environment variable the code consults, `MODAL_APP_SUFFIX`, as an
`Option String`.  The external build platform (Modal) is opaque to this
fragment: its build step is modelled as an oracle that either assigns a
build identifier to an image specification or fails with a platform error.
HTTP endpoint handlers are modelled as functions from the deployed program
state to a pair of (possibly updated) state and a JSON-object response,
the response being a list of string key/value pairs.
-/

namespace Deploy

/-- `os.environ.get(key, default)` restricted to the one key the script reads:
the argument is the value of `MODAL_APP_SUFFIX` in the process environment
(`none` when unset), and the result is that value or the supplied default. -/
def os_environ_get (envSuffix : Option String) (dflt : String) : String :=
  envSuffix.getD dflt

/-- `app_suffix = os.environ.get("MODAL_APP_SUFFIX", "")` (deploy.py line 16). -/
def app_suffix (envSuffix : Option String) : String :=
  os_environ_get envSuffix ""

/-- `app_name = f"proliferate-sandbox-{app_suffix}" if app_suffix else
"proliferate-sandbox"` (deploy.py line 17).  A Python string is truthy
exactly when it is non-empty. -/
def app_name (envSuffix : Option String) : String :=
  if app_suffix envSuffix ≠ "" then "proliferate-sandbox-" ++ app_suffix envSuffix
  else "proliferate-sandbox"

/-- How an image specification names its starting point:
`modal.Image.from_dockerfile(path, force_build=...)` or
`modal.Image.from_registry(tag)`. -/
inductive ImageSource where
  | from_dockerfile (path : String) (force_build : Bool)
  | from_registry (tag : String)
deriving Repr, DecidableEq

/-- One declarative build step chained onto an image specification in
debug_build.py: an environment-variable block, an apt package install,
or a `run_commands` block (with its `force_build` flag, `false` when the
call site does not pass it). -/
inductive ImageStep where
  | env (vars : List (String × String))
  | apt_install (packages : List String)
  | run_commands (commands : List String) (force_build : Bool)
deriving Repr, DecidableEq

/-- An image specification: a source plus the ordered chain of build steps. -/
structure ImageSpec where
  source : ImageSource
  steps : List ImageStep
deriving Repr, DecidableEq

/-- A hydrated image at endpoint-execution time: the specification together
with the build identifier (`object_id`) the platform assigned to it. -/
structure HydratedImage where
  spec : ImageSpec
  object_id : String
deriving Repr, DecidableEq

/-- Modelled from the spec: the external platform's build step is out of
scope ("Build identifier: opaque token assigned by the external platform
once an image specification is successfully built").  A successful build
assigns an arbitrary opaque non-empty token as the image's identifier;
the empty string is not a valid assignment, so `none` models the absence
of a successful build. -/
def platformBuild (spec : ImageSpec) (token : String) : Option HydratedImage :=
  if token = "" then none else some { spec := spec, object_id := token }

/-- `BASE_IMAGE = modal.Image.from_dockerfile(dockerfile_path, force_build=True)`
(deploy.py line 22); `dockerfile_path` is the `Dockerfile` next to the script. -/
def BASE_IMAGE_spec : ImageSpec :=
  { source := ImageSource.from_dockerfile "Dockerfile" true, steps := [] }

/-- The state of the deployed application visible to the two endpoint
handlers: the application name computed at module load and the (hydrated)
base image. -/
structure DeployState where
  app_name : String
  base_image : HydratedImage
deriving Repr, DecidableEq

/-- Module load of deploy.py, at the point where an endpoint handler runs:
the application name is computed once from the environment, and the base
image has been hydrated to `img`. -/
def moduleLoad (envSuffix : Option String) (img : HydratedImage) : DeployState :=
  { app_name := app_name envSuffix, base_image := img }

/-- A JSON-object response of an endpoint: string keys mapped to string
values, in the order the source writes them. -/
def Response : Type := List (String × String)
deriving DecidableEq, Repr

/-- `get_image_id()` (deploy.py lines 26-35): returns
`{"image_id": BASE_IMAGE.object_id}` and touches no other state. -/
def get_image_id (s : DeployState) : DeployState × Response :=
  (s, [("image_id", s.base_image.object_id)])

/-- `health()` (deploy.py lines 38-42): returns
`{"status": "ok", "app": app_name}` and touches no other state. -/
def health (s : DeployState) : DeployState × Response :=
  (s, [("status", "ok"), ("app", s.app_name)])

end Deploy

namespace DebugBuild

open Deploy (ImageSource ImageStep ImageSpec)

/-- `DEBUG_IMAGE` of debug_build.py (lines 7-33): the `ubuntu:22.04` registry
image with the exact chain of env / apt_install / run_commands steps the
script declares.  Only the last `run_commands` passes `force_build=True`. -/
def DEBUG_IMAGE : ImageSpec :=
  { source := ImageSource.from_registry "ubuntu:22.04"
    steps :=
      [ ImageStep.env [("DEBIAN_FRONTEND", "noninteractive")]
      , ImageStep.apt_install ["curl", "ca-certificates", "gnupg"]
      , ImageStep.run_commands
          [ "echo '=== Checking apt nodejs version ==='"
          , "apt-cache policy nodejs || true"
          ] false
      , ImageStep.run_commands
          [ "echo '=== Installing Node 20 from NodeSource ==='"
          , "curl -fsSL https://deb.nodesource.com/setup_20.x | bash -"
          , "apt-get install -y nodejs"
          , "node -v"
          , "npm -v"
          ] false
      , ImageStep.run_commands
          [ "echo '=== Installing sandbox-mcp ==='"
          , "npm config get registry"
          , "npm install -g proliferate-sandbox-mcp@0.1.5 --unsafe-perm --loglevel verbose"
          , "which sandbox-mcp"
          , "sandbox-mcp --version"
          ] true
      ] }

/-- An opaque error raised by the external platform's client library during
a build (the fragment never inspects it, so its payload is a bare string). -/
structure PlatformError where
  message : String
deriving Repr, DecidableEq

/-- The observable outcome of one run of debug_build.py's `__main__` block:
the lines printed to the console, the image specifications whose build was
triggered (in order), and either normal termination with the printed build
identifier or the propagated platform error. -/
structure MainOutcome where
  printed : List String
  builds : List ImageSpec
  result : Except PlatformError String
deriving Repr

/-- The `__main__` block of debug_build.py (lines 35-40), with the external
platform's build call abstracted as the oracle `build`:
prints the banner, triggers exactly one build of `DEBUG_IMAGE` inside
`modal.enable_output()` / `app.run()`, and on success prints the assigned
identifier; an exception from the build call propagates unmodified,
skipping the final print. -/
def debugMain (build : ImageSpec → Except PlatformError String) : MainOutcome :=
  let banner := "Building image with output enabled..."
  match build DEBUG_IMAGE with
  | Except.ok oid =>
      { printed := [banner, "Built image id: " ++ oid]
        builds := [DEBUG_IMAGE]
        result := Except.ok oid }
  | Except.error e =>
      { printed := [banner]
        builds := [DEBUG_IMAGE]
        result := Except.error e }

end DebugBuild

namespace DebugBuild

/-- A build oracle that always succeeds, assigning the identifier `i`. -/
def okOracle (i : String) : Deploy.ImageSpec → Except PlatformError String :=
  fun _ => Except.ok i

/-- A build oracle that always fails with the platform error `e`. -/
def errOracle (e : PlatformError) : Deploy.ImageSpec → Except PlatformError String :=
  fun _ => Except.error e

end DebugBuild

/-- C1: with `MODAL_APP_SUFFIX` unset, the computed application name is the
fixed default `"proliferate-sandbox"`. -/
theorem C1_app_name_default :
    Deploy.app_name none = "proliferate-sandbox" := by
  decide

/-- C2: with `MODAL_APP_SUFFIX` set to `"dev1"`, the computed application
name is `"proliferate-sandbox-dev1"`. -/
theorem C2_app_name_dev1 :
    Deploy.app_name (some "dev1") = "proliferate-sandbox-dev1" := by
  decide

/-- C3 (counterexample): the claim fails at the empty string: with
`MODAL_APP_SUFFIX` set to `""`, the application name is not the
application-name prefix with `""` appended (that would leave a trailing
hyphen); the code falls back to the default instead. -/
theorem C3_counterexample :
    ¬ Deploy.app_name (some "") = "proliferate-sandbox-" ++ "" := by
  decide

/-- C3 (amended): for every non-empty value of `MODAL_APP_SUFFIX`, the
computed application name is the fixed prefix `"proliferate-sandbox-"`
with that value appended; the empty string is excluded (it is treated as
unset). -/
theorem C3_app_name_append (v : String) (h : v ≠ "") :
    Deploy.app_name (some v) = "proliferate-sandbox-" ++ v := by
  simp [Deploy.app_name, Deploy.app_suffix, Deploy.os_environ_get, h]

/-- C3 witness: the amended statement evaluated at the concrete value `"x"`. -/
theorem C3_app_name_append_witness :
    ("x" : String) ≠ "" ∧ Deploy.app_name (some "x") = "proliferate-sandbox-" ++ "x" :=
  ⟨by decide, C3_app_name_append "x" (by decide)⟩

/-- C4: for every environment (hence every application name the module load
computed) and every hydrated base image, the health endpoint returns exactly
`{"status": "ok", "app": <app_name>}`. -/
theorem C4_health_response (envSuffix : Option String) (img : Deploy.HydratedImage) :
    (Deploy.health (Deploy.moduleLoad envSuffix img)).2
      = [("status", "ok"), ("app", Deploy.app_name envSuffix)] :=
  rfl

/-- C5: whenever the external platform's build succeeded (assigning the base
image its identifier), the image-id endpoint returns exactly the one-key
object `{"image_id": <identifier>}` and that identifier is non-empty. -/
theorem C5_get_image_id_response (envSuffix : Option String)
    (spec : Deploy.ImageSpec) (token : String) (img : Deploy.HydratedImage)
    (h : Deploy.platformBuild spec token = some img) :
    (Deploy.get_image_id (Deploy.moduleLoad envSuffix img)).2
        = [("image_id", img.object_id)]
      ∧ img.object_id ≠ "" := by
  refine ⟨rfl, ?_⟩
  unfold Deploy.platformBuild at h
  by_cases ht : token = ""
  · simp [ht] at h
  · simp [ht] at h
    rw [← h]
    exact ht

/-- C5 witness: the statement at a concrete environment, image
specification and platform-assigned token. -/
theorem C5_get_image_id_response_witness :
    Deploy.platformBuild Deploy.BASE_IMAGE_spec "im-abc123"
        = some { spec := Deploy.BASE_IMAGE_spec, object_id := "im-abc123" }
      ∧ ((Deploy.get_image_id (Deploy.moduleLoad none
            { spec := Deploy.BASE_IMAGE_spec, object_id := "im-abc123" })).2
          = [("image_id",
              ({ spec := Deploy.BASE_IMAGE_spec,
                 object_id := "im-abc123" : Deploy.HydratedImage }).object_id)]
        ∧ ({ spec := Deploy.BASE_IMAGE_spec,
             object_id := "im-abc123" : Deploy.HydratedImage }).object_id ≠ "") :=
  ⟨by decide,
   C5_get_image_id_response none Deploy.BASE_IMAGE_spec "im-abc123"
     { spec := Deploy.BASE_IMAGE_spec, object_id := "im-abc123" } (by decide)⟩

/-- C6: both endpoint handlers are side-effect-free reads: executing either
one leaves the whole program state (application name and hydrated base
image) unchanged. -/
theorem C6_handlers_pure (s : Deploy.DeployState) :
    (Deploy.get_image_id s).1 = s ∧ (Deploy.health s).1 = s :=
  ⟨rfl, rfl⟩

/-- C7: when the external build of the debug image succeeds with identifier
`i`, the debug entry point triggers exactly one build (of `DEBUG_IMAGE`),
prints the banner followed by the resulting build identifier, and
terminates normally. -/
theorem C7_debug_main_success
    (build : Deploy.ImageSpec → Except DebugBuild.PlatformError String) (i : String)
    (h : build DebugBuild.DEBUG_IMAGE = Except.ok i) :
    DebugBuild.debugMain build =
      { printed := ["Building image with output enabled...", "Built image id: " ++ i]
        builds := [DebugBuild.DEBUG_IMAGE]
        result := Except.ok i } := by
  unfold DebugBuild.debugMain
  rw [h]

/-- C7 witness: the statement at the concrete always-succeeding oracle
assigning the identifier `"im-dbg"`. -/
theorem C7_debug_main_success_witness :
    DebugBuild.okOracle "im-dbg" DebugBuild.DEBUG_IMAGE = Except.ok "im-dbg"
      ∧ DebugBuild.debugMain (DebugBuild.okOracle "im-dbg") =
          { printed := ["Building image with output enabled...",
                        "Built image id: " ++ "im-dbg"]
            builds := [DebugBuild.DEBUG_IMAGE]
            result := Except.ok "im-dbg" } :=
  ⟨rfl, C7_debug_main_success (DebugBuild.okOracle "im-dbg") "im-dbg" rfl⟩

/-- C8: when the external build of the debug image fails with a platform
error `e`, the debug entry point propagates exactly that error, triggers
no retry (the single build is the only one), and never prints a build
identifier (only the banner is printed). -/
theorem C8_debug_main_failure
    (build : Deploy.ImageSpec → Except DebugBuild.PlatformError String)
    (e : DebugBuild.PlatformError)
    (h : build DebugBuild.DEBUG_IMAGE = Except.error e) :
    DebugBuild.debugMain build =
      { printed := ["Building image with output enabled..."]
        builds := [DebugBuild.DEBUG_IMAGE]
        result := Except.error e } := by
  unfold DebugBuild.debugMain
  rw [h]

/-- C8 witness: the statement at the concrete always-failing oracle. -/
theorem C8_debug_main_failure_witness :
    DebugBuild.errOracle { message := "boom" } DebugBuild.DEBUG_IMAGE
        = Except.error { message := "boom" }
      ∧ DebugBuild.debugMain (DebugBuild.errOracle { message := "boom" }) =
          { printed := ["Building image with output enabled..."]
            builds := [DebugBuild.DEBUG_IMAGE]
            result := Except.error { message := "boom" } } :=
  ⟨rfl, C8_debug_main_failure (DebugBuild.errOracle { message := "boom" })
          { message := "boom" } rfl⟩

/-- C9: with `MODAL_APP_SUFFIX` set to the empty string, the computed
application name is the fixed default `"proliferate-sandbox"`, the same as
when the variable is unset, with no trailing hyphen. -/
theorem C9_app_name_empty :
    Deploy.app_name (some "") = "proliferate-sandbox"
      ∧ Deploy.app_name (some "") = Deploy.app_name none := by
  constructor
  · decide
  · decide

/-- C10: the health endpoint is deterministic and depends on nothing but the
environment variable read at module load: for a fixed `MODAL_APP_SUFFIX`,
any two program states (whatever image the platform hydrated) yield equal
health responses. -/
theorem C10_health_deterministic (envSuffix : Option String)
    (img1 img2 : Deploy.HydratedImage) :
    (Deploy.health (Deploy.moduleLoad envSuffix img1)).2
      = (Deploy.health (Deploy.moduleLoad envSuffix img2)).2 :=
  rfl
